import Mathlib

/-!
Shallow embedding of `virtualizarr/readers/hdf_filters.py`: the
filter-to-codec resolver (`_filter_to_codec`, `codecs_from_dataset`) and
the CF linear-transform deriver (`cfcodec_from_dataset`).

Python exceptions are modelled by `PyErr`; fallible functions return
`Except PyErr _`.  Numeric attribute values are modelled by rationals.
-/

instance {e a : Type} [DecidableEq e] [DecidableEq a] : DecidableEq (Except e a) := fun x y =>
  match x, y with
  | Except.ok u, Except.ok v =>
    if h : u = v then Decidable.isTrue (congrArg Except.ok h)
    else Decidable.isFalse (fun hc => h (Except.ok.inj hc))
  | Except.error u, Except.error v =>
    if h : u = v then Decidable.isTrue (congrArg Except.error h)
    else Decidable.isFalse (fun hc => h (Except.error.inj hc))
  | Except.ok _, Except.error _ => Decidable.isFalse (fun hc => Except.noConfusion hc)
  | Except.error _, Except.ok _ => Decidable.isFalse (fun hc => Except.noConfusion hc)

/-- Exception classes that the translated code can raise.
`valueErr` stands for numcodecs' "codec not available" ValueError raised by
`registry.get_codec`; `keyErr` for the KeyError escaping the `cname`
validator (a `LookupError` subclass); `validationErr` for pydantic's
ValidationError on missing fields; `unboundLocal` for the UnboundLocalError
hit when `conf` was never assigned; `typeErr` / `indexErr` for indexing a
non-indexable scalar / an empty array; `ambiguousTruth` for numpy's
ValueError on the truth value of a multi-element array. -/
inductive PyErr where
  | typeErr
  | indexErr
  | keyErr
  | valueErr
  | validationErr
  | unboundLocal
  | ambiguousTruth
deriving DecidableEq, Repr

/-- A filter identifier as it arrives from `dataset._filters`: a string that
either parses as an integer (`int(filter_id)` succeeds) or does not. -/
inductive FilterId where
  | num (n : Int)
  | str (s : String)
deriving DecidableEq, Repr

/-- The `filter_properties` blob: `Union[int, None, Tuple]` in the source. -/
inductive FilterProps where
  | none
  | int (n : Int)
  | tuple (xs : List Int)
deriving DecidableEq, Repr

/-- The codec configuration dict built by `_filter_to_codec`: either a
string-id conf (with an optional `level` entry, present exactly when the
source attached one) or the blosc conf produced from `BloscProperties`. -/
inductive CodecConf where
  | str (id : String) (level : Option FilterProps)
  | blosc (blocksize clevel shuffle : Int) (cname : String)
deriving DecidableEq, Repr

/-- The `id` entry of a codec configuration. -/
def CodecConf.confId : CodecConf → String
  | .str id _ => id
  | .blosc _ _ _ _ => "blosc"

/-- Association lookup on an `Int`-keyed table (Python dict access). -/
def assocFind (n : Int) : List (Int × String) → Option String
  | [] => Option.none
  | (k, v) :: rest => if n = k then Option.some v else assocFind n rest

/-- Table `_non_standard_filters = {"gzip": "zlib"}` from the source. -/
def _non_standard_filters : List (String × String) := [("gzip", "zlib")]

/-- Lookup in `_non_standard_filters`. -/
def nonStandardLookup (s : String) : Option String :=
  match _non_standard_filters.find? (fun p => p.1 = s) with
  | Option.some p => Option.some p.2
  | Option.none => Option.none

/-- The registered hdf5plugin filters: HDF5 filter id paired with the
class's `filter_name`, as enumerated by `hdf5plugin.get_filters`. -/
def hdfPluginFilters : List (Int × String) :=
  [(307, "bzip2"), (32001, "blosc"), (32004, "lz4"), (32008, "bshuf"),
   (32013, "zfp"), (32015, "zstd"), (32017, "sz"), (32018, "fcidecomp"),
   (32024, "sz3"), (32026, "blosc2"), (32028, "sperr")]

/-- Resolution `hdf5plugin.get_filters(id_int)[0].filter_name`: the canonical filter
name for a numeric filter id, or `none` when no registered filter matches
(in which case the `[0]` index raises IndexError). -/
def hdfFilterName (n : Int) : Option String :=
  assocFind n hdfPluginFilters

/-- Table `hdf5plugin._filters.Blosc._Blosc__COMPRESSIONS`: compressor name to
packed code. -/
def bloscCompressions : List (String × Int) :=
  [("blosclz", 0), ("lz4", 1), ("lz4hc", 2), ("snappy", 3),
   ("zlib", 4), ("zstd", 5)]

/-- The reverse (code -> name) lookup built in
`BloscProperties.get_cname_from_code`. -/
def bloscCodeToName (v : Int) : Option String :=
  assocFind v (bloscCompressions.map (fun p => (p.2, p.1)))

/-- Python `xs[-4:]`: the last `n` elements of a list (the whole list when
it is shorter). -/
def lastN (n : Nat) (xs : List Int) : List Int :=
  xs.drop (xs.length - n)

/-- Construction `BloscProperties(**zip(fields, filter_properties[-4:]))` followed by
`model_dump()` plus `conf["id"] = "blosc"`: positional decode of the last
four tuple elements as (blocksize, clevel, shuffle, cname_code), with the
`cname` pre-validator translating the code through the reverse lookup
(KeyError when absent) and pydantic rejecting a too-short tuple (missing
fields). -/
def bloscConstruct (xs : List Int) : Except PyErr CodecConf :=
  match lastN 4 xs with
  | [b, c, s, v] =>
    match bloscCodeToName v with
    | Option.some name => Except.ok (CodecConf.blosc b c s name)
    | Option.none => Except.error PyErr.keyErr
  | _ => Except.error PyErr.validationErr

/-- The codec ids registered in the external numcodecs registry
(`numcodecs.registry.codec_registry`). -/
def numcodecsRegistry : List String :=
  ["zlib", "gzip", "bz2", "lzma", "blosc", "zstd", "lz4", "astype",
   "delta", "quantize", "fixedscaleoffset", "packbits", "categorize",
   "pickle", "base64", "shuffle", "msgpack2", "crc32", "adler32",
   "vlen-utf8", "vlen-bytes", "vlen-array", "json2"]

/-- Model of `numcodecs.registry.get_codec(conf)`: resolves the conf's `id` in the
registry, raising "codec not available" (a ValueError) for an unknown id.
The resolved codec is represented by its own configuration. -/
def get_codec (conf : CodecConf) : Except PyErr CodecConf :=
  if conf.confId ∈ numcodecsRegistry then Except.ok conf
  else Except.error PyErr.valueErr

/-- The straight-line body of `_filter_to_codec` up to (but excluding) the
final `registry.get_codec(conf)` call: builds the conf dict, or fails where
the Python would.  `int(filter_id)` succeeding/failing is the `num` / `str`
split; the truthiness guards `if id_str:` and `if id_int:` are the
`s = ""` and `n = 0` tests; reaching the final line with `conf` never
assigned raises UnboundLocalError. -/
def _filter_to_conf (filter_id : FilterId) (filter_properties : FilterProps) :
    Except PyErr CodecConf :=
  match filter_id with
  | FilterId.str s =>
    if s = "" then Except.error PyErr.unboundLocal
    else
      let id := (nonStandardLookup s).getD s
      Except.ok (CodecConf.str id
        (if id = "zlib" then Option.some filter_properties else Option.none))
  | FilterId.num n =>
    if n = 0 then Except.error PyErr.unboundLocal
    else
      match hdfFilterName n with
      | Option.none => Except.error PyErr.indexErr
      | Option.some name =>
        if name = "blosc" then
          match filter_properties with
          | FilterProps.tuple xs => bloscConstruct xs
          | _ => Except.error PyErr.unboundLocal
        else Except.error PyErr.unboundLocal

/-- Source function `_filter_to_codec(filter_id, filter_properties)`: build the conf, then
resolve it through the numcodecs registry. -/
def _filter_to_codec (filter_id : FilterId) (filter_properties : FilterProps) :
    Except PyErr CodecConf :=
  match _filter_to_conf filter_id filter_properties with
  | Except.ok conf => get_codec conf
  | Except.error e => Except.error e

/-- Source function `codecs_from_dataset`: iterate `dataset._filters.items()` in order,
translating each pair; the first failure aborts the whole call. -/
def codecs_from_dataset (filters : List (FilterId × FilterProps)) :
    Except PyErr (List CodecConf) :=
  match filters with
  | [] => Except.ok []
  | (fid, props) :: rest =>
    match _filter_to_codec fid props with
    | Except.error e => Except.error e
    | Except.ok c =>
      match codecs_from_dataset rest with
      | Except.error e => Except.error e
      | Except.ok cs => Except.ok (c :: cs)

/-- A numpy-valued HDF attribute: either a (non-indexable) scalar or a
1-d array of numbers. -/
inductive AttrVal where
  | scalar (x : ℚ)
  | arr (xs : List ℚ)
deriving DecidableEq, Repr

/-- Element-type kind of a numpy dtype. -/
inductive DKind where
  | int
  | uint
  | float
deriving DecidableEq, Repr

/-- A numpy dtype: kind plus itemsize in bytes. -/
structure Dtype where
  kind : DKind
  itemsize : Nat
deriving DecidableEq, Repr

/-- The slice of an `h5py.Dataset` that `cfcodec_from_dataset` reads: the
`scale_factor` / `add_offset` attributes and the raw dtype. -/
structure HDataset where
  scale_factor : Option AttrVal
  add_offset : Option AttrVal
  dtype : Dtype
deriving DecidableEq, Repr

/-- Codec `numcodecs.fixedscaleoffset.FixedScaleOffset(offset, scale, dtype,
astype)` as constructed by the deriver (fields as passed). -/
structure FixedScaleOffset where
  offset : AttrVal
  scale : ℚ
  dtype : Dtype
  astype : Dtype
deriving DecidableEq, Repr

/-- The `CFCodec` TypedDict: target dtype plus the constructed codec. -/
structure CFCodec where
  target_dtype : Dtype
  codec : FixedScaleOffset
deriving DecidableEq, Repr

/-- Assignment `mapping["scale_factor"] = 1 / attributes["scale_factor"][0]` when the
attribute is present, else `1`.  Indexing a scalar attribute raises
TypeError; indexing an empty array raises IndexError. -/
def derive_scale (d : HDataset) : Except PyErr ℚ :=
  match d.scale_factor with
  | Option.none => Except.ok 1
  | Option.some (AttrVal.scalar _) => Except.error PyErr.typeErr
  | Option.some (AttrVal.arr []) => Except.error PyErr.indexErr
  | Option.some (AttrVal.arr (x :: _)) => Except.ok (1 / x)

/-- Assignment `mapping["add_offset"] = attributes["add_offset"]` when present (used
whole, never indexed), else `0`. -/
def derive_offset (d : HDataset) : AttrVal :=
  match d.add_offset with
  | Option.some v => v
  | Option.none => AttrVal.scalar 0

/-- Truthiness of the numpy comparison `v != 0`: elementwise for arrays,
with numpy's ambiguous-truth ValueError on more than one element and a
falsy empty result. -/
def attrNeZero (v : AttrVal) : Except PyErr Bool :=
  match v with
  | AttrVal.scalar x => Except.ok (decide (x ≠ 0))
  | AttrVal.arr [] => Except.ok false
  | AttrVal.arr [x] => Except.ok (decide (x ≠ 0))
  | AttrVal.arr (_ :: _ :: _) => Except.error PyErr.ambiguousTruth

/-- Modelled from the spec: the external helper
`xarray.coding.variables._choose_float_dtype`, delegated by the source
without a fully specified algorithm — "compute the minimal floating-point
dtype that can hold raw values after applying the transform", widening by
raw integer width.  It always yields a floating dtype. -/
def _choose_float_dtype (dtype : Dtype) : Dtype :=
  if dtype.kind = DKind.float ∧ dtype.itemsize ≤ 4 then Dtype.mk DKind.float 4
  else if dtype.kind ≠ DKind.float ∧ dtype.itemsize ≤ 2 then Dtype.mk DKind.float 4
  else Dtype.mk DKind.float 8

/-- Source function `cfcodec_from_dataset`: derive scale and offset, and when
`mapping["scale_factor"] != 1 or mapping["add_offset"] != 0` (evaluated
with Python's short-circuiting `or`) build the `FixedScaleOffset` codec
with the chosen float target dtype, else return `None`. -/
def cfcodec_from_dataset (d : HDataset) : Except PyErr (Option CFCodec) :=
  match derive_scale d with
  | Except.error e => Except.error e
  | Except.ok scale =>
    let offset := derive_offset d
    let build : Option CFCodec :=
      let target_dtype := _choose_float_dtype d.dtype
      Option.some (CFCodec.mk target_dtype
        (FixedScaleOffset.mk offset scale target_dtype d.dtype))
    if scale ≠ 1 then Except.ok build
    else
      match attrNeZero offset with
      | Except.error e => Except.error e
      | Except.ok true => Except.ok build
      | Except.ok false => Except.ok Option.none

/-- A successful association lookup means the pair is in the table. -/
lemma assocFind_mem {n : Int} {v : String} : ∀ {l : List (Int × String)},
    assocFind n l = Option.some v → (n, v) ∈ l := by
  intro l
  induction l with
  | nil => intro h; exact absurd h (by simp [assocFind])
  | cons p rest ih =>
    intro h
    obtain ⟨k, w⟩ := p
    simp only [assocFind] at h
    by_cases hk : n = k
    · subst hk
      rw [if_pos rfl] at h
      cases h
      exact List.mem_cons_self _ _
    · simp only [if_neg hk] at h
      exact List.mem_cons_of_mem _ (ih h)

/-- Only filter id 32001 carries the canonical name "blosc" in the
hdf5plugin registry. -/
lemma hdfFilterName_blosc {n : Int} (h : hdfFilterName n = Option.some "blosc") :
    n = 32001 := by
  have hmem := assocFind_mem h
  simp only [hdfPluginFilters, List.mem_cons, List.not_mem_nil, or_false,
    Prod.mk.injEq] at hmem
  rcases hmem with ⟨h1, h2⟩ | ⟨h1, h2⟩ | ⟨h1, h2⟩ | ⟨h1, h2⟩ | ⟨h1, h2⟩ |
    ⟨h1, h2⟩ | ⟨h1, h2⟩ | ⟨h1, h2⟩ | ⟨h1, h2⟩ | ⟨h1, h2⟩ | ⟨h1, h2⟩ <;>
    first
      | exact h1
      | exact absurd h2 (by simp)

/-- A registered numeric filter id is never zero. -/
lemma hdfFilterName_ne_zero {n : Int} {name : String}
    (h : hdfFilterName n = Option.some name) : n ≠ 0 := by
  intro h0
  subst h0
  have h0 : hdfFilterName 0 = Option.none := by decide
  rw [h0] at h
  exact Option.noConfusion h

/-- C1: every numeric filter id that the plugin registry resolves to the
canonical name "blosc", given a tuple parameter blob whose last four
elements are (blocksize, clevel, shuffle, cname_code) with cname_code
present in the reverse compressor-code lookup, yields the codec descriptor
with id "blosc" and those fields, the code mapped to its compressor
name. -/
theorem blosc_numeric_filter_descriptor (n : Int) (xs : List Int)
    (b c s v : Int) (name : String)
    (hname : hdfFilterName n = Option.some "blosc")
    (hlast : lastN 4 xs = [b, c, s, v])
    (hcode : bloscCodeToName v = Option.some name) :
    _filter_to_codec (FilterId.num n) (FilterProps.tuple xs) =
      Except.ok (CodecConf.blosc b c s name) := by
  have hn : n = 32001 := hdfFilterName_blosc hname
  subst hn
  simp [_filter_to_codec, _filter_to_conf, bloscConstruct, hlast, hcode,
    get_codec, CodecConf.confId, hdfFilterName, hdfPluginFilters, assocFind,
    numcodecsRegistry]

/-- C1 witness: numeric id 32001 with parameter tuple ending in
(0, 5, 1, 1) resolves to the blosc descriptor with cname "lz4". -/
theorem blosc_numeric_filter_descriptor_witness :
    _filter_to_codec (FilterId.num 32001) (FilterProps.tuple [2, 2, 0, 5, 1, 1]) =
      Except.ok (CodecConf.blosc 0 5 1 "lz4") :=
  blosc_numeric_filter_descriptor 32001 [2, 2, 0, 5, 1, 1] 0 5 1 1 "lz4"
    (by decide) (by decide) (by decide)

/-- C2: every non-empty string filter id is normalized through the alias
table `_non_standard_filters`, the passed parameter is attached as `level`
exactly when the normalized id is "zlib", and when the normalized id is
known to the registry the descriptor is returned. -/
theorem string_filter_descriptor (s : String) (props : FilterProps)
    (hs : s ≠ "")
    (hreg : ((nonStandardLookup s).getD s) ∈ numcodecsRegistry) :
    _filter_to_codec (FilterId.str s) props =
      Except.ok (CodecConf.str ((nonStandardLookup s).getD s)
        (if (nonStandardLookup s).getD s = "zlib" then Option.some props
         else Option.none)) := by
  simp [_filter_to_codec, _filter_to_conf, hs, get_codec, CodecConf.confId, hreg]

/-- C2 witness: the string filter id "gzip" with level 4 yields the
descriptor with id "zlib" and level 4. -/
theorem string_filter_descriptor_witness :
    _filter_to_codec (FilterId.str "gzip") (FilterProps.int 4) =
      Except.ok (CodecConf.str "zlib" (Option.some (FilterProps.int 4))) := by
  have h := string_filter_descriptor "gzip" (FilterProps.int 4)
    (by decide) (by decide)
  simpa using h

/-- C5: whenever the built descriptor's id does not resolve in the external
codec registry, `_filter_to_codec` fails with the registry's
codec-not-available error and returns no partial descriptor. -/
theorem unknown_codec_fatal (fid : FilterId) (props : FilterProps)
    (conf : CodecConf) (hconf : _filter_to_conf fid props = Except.ok conf)
    (hreg : conf.confId ∉ numcodecsRegistry) :
    _filter_to_codec fid props = Except.error PyErr.valueErr := by
  simp [_filter_to_codec, hconf, get_codec, hreg]

/-- C5 witness: the string filter id "lzf" builds a descriptor whose id is
unknown to the registry, and the call fails. -/
theorem unknown_codec_fatal_witness :
    _filter_to_codec (FilterId.str "lzf") FilterProps.none =
      Except.error PyErr.valueErr :=
  unknown_codec_fatal (FilterId.str "lzf") FilterProps.none
    (CodecConf.str "lzf" Option.none) (by decide) (by decide)

/-- C6: `codecs_from_dataset` returns, on success, a list of the same
length as the input filter sequence whose i-th codec is the resolution of
the i-th filter id/parameter pair — source order preserved exactly. -/
theorem codecs_preserve_order : ∀ (fs : List (FilterId × FilterProps))
    (cs : List CodecConf), codecs_from_dataset fs = Except.ok cs →
    cs.length = fs.length ∧
      ∀ i (h : i < fs.length) (h' : i < cs.length),
        _filter_to_codec (fs.get ⟨i, h⟩).1 (fs.get ⟨i, h⟩).2 =
          Except.ok (cs.get ⟨i, h'⟩) := by
  intro fs
  induction fs with
  | nil =>
    intro cs h
    simp only [codecs_from_dataset] at h
    cases h
    exact ⟨rfl, fun i h _ => absurd h (Nat.not_lt_zero i)⟩
  | cons p rest ih =>
    intro cs h
    obtain ⟨fid, props⟩ := p
    simp only [codecs_from_dataset] at h
    cases hc : _filter_to_codec fid props with
    | error e => rw [hc] at h; exact Except.noConfusion h
    | ok c =>
      rw [hc] at h
      cases hr : codecs_from_dataset rest with
      | error e => rw [hr] at h; exact Except.noConfusion h
      | ok cs2 =>
        rw [hr] at h
        cases h
        obtain ⟨hlen, hidx⟩ := ih cs2 hr
        refine ⟨by simp [hlen], ?_⟩
        intro i hi hi2
        cases i with
        | zero => simpa using hc
        | succ j =>
          have hj : j < rest.length := by simpa using hi
          have hj2 : j < cs2.length := by simpa using hi2
          simpa using hidx j hj hj2

/-- C6 witness: a two-filter pipeline translates to a list of the same
length, in order. -/
theorem codecs_preserve_order_witness :
    ([CodecConf.str "zlib" (Option.some (FilterProps.int 4)),
      CodecConf.blosc 0 5 1 "lz4"] : List CodecConf).length =
      ([(FilterId.str "gzip", FilterProps.int 4),
        (FilterId.num 32001, FilterProps.tuple [2, 2, 0, 5, 1, 1])] :
        List (FilterId × FilterProps)).length :=
  (codecs_preserve_order
    [(FilterId.str "gzip", FilterProps.int 4),
     (FilterId.num 32001, FilterProps.tuple [2, 2, 0, 5, 1, 1])]
    [CodecConf.str "zlib" (Option.some (FilterProps.int 4)),
     CodecConf.blosc 0 5 1 "lz4"] (by decide)).1

/-- C7 counterexample: filter id 32015 is registered (canonical name
"zstd"), yet `_filter_to_codec` does not complete: the numeric branch
builds no descriptor for non-blosc names and the final registry call hits
the unbound `conf`. -/
theorem numeric_registered_error_cex :
    _filter_to_codec (FilterId.num 32015) FilterProps.none =
      Except.error PyErr.unboundLocal := by decide

/-- C7 amended: for every filter identifier that parses as a nonzero
integer, `_filter_to_codec` takes the numeric-filter path, resolving the
integer through the plugin-filter registry: an unregistered id fails at
the `[0]` index, and a registered id whose canonical name is not "blosc"
falls through with no descriptor built and fails with UnboundLocalError
instead of completing. -/
theorem numeric_path_amended (n : Int) (props : FilterProps) (hn : n ≠ 0) :
    (hdfFilterName n = Option.none →
      _filter_to_codec (FilterId.num n) props = Except.error PyErr.indexErr) ∧
    (∀ name, hdfFilterName n = Option.some name → name ≠ "blosc" →
      _filter_to_codec (FilterId.num n) props =
        Except.error PyErr.unboundLocal) := by
  constructor
  · intro hname
    simp [_filter_to_codec, _filter_to_conf, if_neg hn, hname]
  · intro name hname hnb
    simp [_filter_to_codec, _filter_to_conf, if_neg hn, hname, if_neg hnb]

/-- C7 amended witness: unregistered nonzero id 99999 fails with the
IndexError of `get_filters(99999)[0]`. -/
theorem numeric_path_amended_witness :
    _filter_to_codec (FilterId.num 99999) FilterProps.none =
      Except.error PyErr.indexErr :=
  (numeric_path_amended 99999 FilterProps.none (by decide)).1 (by decide)

/-- C8: a numeric blosc filter whose packed cname code has no entry in the
reverse compressor-code table fails with the KeyError (a LookupError) of
the `cname` validator, producing no descriptor. -/
theorem blosc_unknown_cname_fails (xs : List Int) (b c s v : Int)
    (hlast : lastN 4 xs = [b, c, s, v])
    (hcode : bloscCodeToName v = Option.none) :
    _filter_to_codec (FilterId.num 32001) (FilterProps.tuple xs) =
      Except.error PyErr.keyErr := by
  simp [_filter_to_codec, _filter_to_conf, hdfFilterName, hdfPluginFilters,
    assocFind, bloscConstruct, hlast, hcode]

/-- C8 witness: cname code 99 has no entry, so the blosc translation
fails. -/
theorem blosc_unknown_cname_fails_witness :
    _filter_to_codec (FilterId.num 32001) (FilterProps.tuple [0, 5, 1, 99]) =
      Except.error PyErr.keyErr :=
  blosc_unknown_cname_fails [0, 5, 1, 99] 0 5 1 99 (by decide) (by decide)

/-- C9: in the numeric branch a descriptor is assigned only for blosc
filters with tuple parameters: any registered numeric id whose name is not
"blosc", or whose parameter blob is not a tuple, leaves `conf` unbound and
the call fails; conversely a successful numeric translation implies the
name was "blosc" and the parameters a tuple. -/
theorem numeric_branch_only_blosc (n : Int) (props : FilterProps) :
    (∀ name, hdfFilterName n = Option.some name →
      (name ≠ "blosc" ∨ ∀ xs, props ≠ FilterProps.tuple xs) →
      _filter_to_codec (FilterId.num n) props =
        Except.error PyErr.unboundLocal) ∧
    (∀ conf, _filter_to_codec (FilterId.num n) props = Except.ok conf →
      hdfFilterName n = Option.some "blosc" ∧
        ∃ xs, props = FilterProps.tuple xs) := by
  constructor
  · intro name hname hcond
    have hn0 : n ≠ 0 := hdfFilterName_ne_zero hname
    rcases hcond with hnb | hnt
    · simp [_filter_to_codec, _filter_to_conf, if_neg hn0, hname, if_neg hnb]
    · by_cases hb : name = "blosc"
      · subst hb
        cases props with
        | tuple xs => exact absurd rfl (hnt xs)
        | none => simp [_filter_to_codec, _filter_to_conf, if_neg hn0, hname]
        | int m => simp [_filter_to_codec, _filter_to_conf, if_neg hn0, hname]
      · simp [_filter_to_codec, _filter_to_conf, if_neg hn0, hname, if_neg hb]
  · intro conf hok
    by_cases hn0 : n = 0
    · subst hn0
      simp [_filter_to_codec, _filter_to_conf] at hok
    · cases hname : hdfFilterName n with
      | none =>
        simp [_filter_to_codec, _filter_to_conf, if_neg hn0, hname] at hok
      | some name =>
        by_cases hb : name = "blosc"
        · subst hb
          cases props with
          | tuple xs => exact ⟨rfl, xs, rfl⟩
          | none =>
            simp [_filter_to_codec, _filter_to_conf, if_neg hn0, hname] at hok
          | int m =>
            simp [_filter_to_codec, _filter_to_conf, if_neg hn0, hname] at hok
        · simp [_filter_to_codec, _filter_to_conf, if_neg hn0, hname,
            if_neg hb] at hok

/-- C9 witness: the registered blosc id 32001 with a non-tuple parameter
blob leaves the descriptor unbound. -/
theorem numeric_branch_only_blosc_witness :
    _filter_to_codec (FilterId.num 32001) (FilterProps.int 7) =
      Except.error PyErr.unboundLocal :=
  (numeric_branch_only_blosc 32001 (FilterProps.int 7)).1 "blosc" (by decide)
    (Or.inr (fun xs h => FilterProps.noConfusion h))

/-- The external float-dtype chooser always yields a floating dtype. -/
lemma choose_float_dtype_is_float (dt : Dtype) :
    (_choose_float_dtype dt).kind = DKind.float := by
  unfold _choose_float_dtype
  split_ifs <;> rfl

/-- C3: on every dataset where the deriver completes, it returns absent
(None) exactly when the derived scale equals 1 and the derived offset
compares equal to 0. -/
theorem cf_absent_iff (d : HDataset) (r : Option CFCodec)
    (h : cfcodec_from_dataset d = Except.ok r) :
    r = Option.none ↔
      derive_scale d = Except.ok 1 ∧
        attrNeZero (derive_offset d) = Except.ok false := by
  cases hs : derive_scale d with
  | error e =>
    simp only [cfcodec_from_dataset, hs] at h
    exact Except.noConfusion h
  | ok scale =>
    simp only [cfcodec_from_dataset, hs] at h
    by_cases h1 : scale = 1
    · subst h1
      rw [if_neg (by simp : ¬(1 : ℚ) ≠ 1)] at h
      cases ho : attrNeZero (derive_offset d) with
      | error e =>
        simp only [ho] at h
        exact Except.noConfusion h
      | ok b =>
        cases b with
        | false =>
          simp only [ho] at h
          cases h
          simp [ho]
        | true =>
          simp only [ho] at h
          cases h
          constructor
          · intro hc
            exact Option.noConfusion hc
          · rintro ⟨-, hoff⟩
            simp [ho] at hoff
    · rw [if_pos h1] at h
      cases h
      constructor
      · intro hc
        exact Option.noConfusion hc
      · rintro ⟨hs1, -⟩
        exact absurd (Except.ok.inj hs1) h1

/-- C3 witness: a dataset with neither `scale_factor` nor `add_offset`
yields absent, and the iff holds there. -/
theorem cf_absent_iff_witness :
    (Option.none : Option CFCodec) = Option.none ↔
      derive_scale (HDataset.mk Option.none Option.none (Dtype.mk DKind.int 2)) =
          Except.ok 1 ∧
        attrNeZero (derive_offset
            (HDataset.mk Option.none Option.none (Dtype.mk DKind.int 2))) =
          Except.ok false :=
  cf_absent_iff (HDataset.mk Option.none Option.none (Dtype.mk DKind.int 2))
    Option.none (by decide)

/-- C4: with `scale_factor = [1/100]` and `add_offset = [5]` on an integer
raw dtype, the deriver returns a transform with scale 100 (computed as
1 / scale_factor[0]), the whole add_offset attribute as offset, a floating
target dtype, and the raw dtype in the codec's astype field. -/
theorem cf_linear_transform (dt : Dtype)
    (_hint : dt.kind = DKind.int ∨ dt.kind = DKind.uint) :
    ∃ cf,
      cfcodec_from_dataset (HDataset.mk (Option.some (AttrVal.arr [1/100]))
          (Option.some (AttrVal.arr [5])) dt) = Except.ok (Option.some cf) ∧
      cf.codec.scale = 100 ∧
      cf.codec.offset = AttrVal.arr [5] ∧
      cf.target_dtype.kind = DKind.float ∧
      cf.codec.astype = dt ∧
      cf.codec.dtype = cf.target_dtype := by
  have hs : derive_scale (HDataset.mk (Option.some (AttrVal.arr [1/100]))
      (Option.some (AttrVal.arr [5])) dt) = Except.ok 100 := by
    simp only [derive_scale]
    norm_num
  refine ⟨CFCodec.mk (_choose_float_dtype dt)
      (FixedScaleOffset.mk (AttrVal.arr [5]) 100 (_choose_float_dtype dt) dt),
    ?_, rfl, rfl, choose_float_dtype_is_float dt, rfl, rfl⟩
  simp only [cfcodec_from_dataset, hs]
  rw [if_pos (by norm_num : (100 : ℚ) ≠ 1)]
  rfl

/-- C4 witness: the transform exists for a 2-byte signed integer raw
dtype. -/
theorem cf_linear_transform_witness :
    ∃ cf,
      cfcodec_from_dataset (HDataset.mk (Option.some (AttrVal.arr [1/100]))
          (Option.some (AttrVal.arr [5])) (Dtype.mk DKind.int 2)) =
        Except.ok (Option.some cf) ∧
      cf.codec.scale = 100 ∧
      cf.codec.offset = AttrVal.arr [5] ∧
      cf.target_dtype.kind = DKind.float ∧
      cf.codec.astype = Dtype.mk DKind.int 2 ∧
      cf.codec.dtype = cf.target_dtype :=
  cf_linear_transform (Dtype.mk DKind.int 2) (Or.inl rfl)

/-- C10: `scale_factor`, when present, must be a non-empty indexable
sequence (its element 0 is used to compute the scale): a scalar value
fails with TypeError and an empty array with IndexError; `add_offset` by
contrast is used whole, so a scalar add_offset succeeds and is stored
unchanged in the codec. -/
theorem cf_scale_factor_indexed (q : ℚ) (off : Option AttrVal) (dt : Dtype) :
    cfcodec_from_dataset (HDataset.mk (Option.some (AttrVal.scalar q)) off dt) =
      Except.error PyErr.typeErr ∧
    cfcodec_from_dataset (HDataset.mk (Option.some (AttrVal.arr [])) off dt) =
      Except.error PyErr.indexErr ∧
    (∀ p : ℚ, p ≠ 0 →
      cfcodec_from_dataset
          (HDataset.mk Option.none (Option.some (AttrVal.scalar p)) dt) =
        Except.ok (Option.some (CFCodec.mk (_choose_float_dtype dt)
          (FixedScaleOffset.mk (AttrVal.scalar p) 1
            (_choose_float_dtype dt) dt)))) := by
  refine ⟨rfl, rfl, ?_⟩
  intro p hp
  rw [cfcodec_from_dataset]
  simp [derive_scale, derive_offset, attrNeZero, hp]

/-- C10 witness: scalar add_offset 5 with no scale_factor succeeds, the
scalar stored whole as the codec offset. -/
theorem cf_scale_factor_indexed_witness :
    cfcodec_from_dataset (HDataset.mk Option.none
        (Option.some (AttrVal.scalar 5)) (Dtype.mk DKind.int 2)) =
      Except.ok (Option.some (CFCodec.mk (Dtype.mk DKind.float 4)
        (FixedScaleOffset.mk (AttrVal.scalar 5) 1 (Dtype.mk DKind.float 4)
          (Dtype.mk DKind.int 2)))) := by
  have h := (cf_scale_factor_indexed 0 Option.none (Dtype.mk DKind.int 2)).2.2
    5 (by norm_num)
  simpa [_choose_float_dtype] using h
